import Mathlib

/-
Shallow embedding of src/src/client.rs of vendor-posthog-client.

Conventions of the embedding:
- the process environment is passed explicitly: the value of the
  POSTHOG_API_KEY variable is an Option String argument;
- the Google Secret Manager pipeline (manager construction, get_secret,
  UTF-8 decoding) is an external capability; its combined result is passed
  as an Except CredError String argument;
- a Rust panic (the assert macro in from_env and from_google_secret_manager)
  is modelled as the distinct constructor Outcome.panic, so that panicking
  and returning an error are separated in the model;
- the hyper transport is modelled by TransportBehavior: the wrapped future
  either completes at some instant with a result (Ok response or a hyper
  send error) or never completes; tokio time timeout delivers the result
  when the completion instant is within the bound and an elapsed error
  otherwise;
- Rust std HashMap of String to String is modelled as an association list
  with unique keys; its unspecified iteration order is fixed canonically to
  first-insertion order;
- chrono NaiveDateTime is abstracted to Int; its serde rendering is
  abstracted to a string, keeping faithful the distinction between an
  absent timestamp (JSON null) and a present one.
-/

set_option autoImplicit false

namespace PosthogClient

/-- Constant API_ENDPOINT of src/src/client.rs. -/
def API_ENDPOINT : String := "https://app.posthog.com/"

/-- Constant APT_CAPTURE of src/src/client.rs. -/
def APT_CAPTURE : String := "capture/"

/-- Constant TIMEOUT of src/src/client.rs, in milliseconds. -/
def TIMEOUT : Nat := 2000

/-- Model of Rust str trim: drop leading and trailing whitespace characters. -/
def rustTrim (s : String) : String :=
  String.mk (((s.toList.dropWhile Char.isWhitespace).reverse.dropWhile Char.isWhitespace).reverse)

/-- Model of chrono NaiveDateTime, kept abstract. -/
abbrev NaiveDateTime := Int

/-- Model of std HashMap insert on an association list with unique keys:
replace the binding of an existing key in place, otherwise append. -/
def hashMapInsert : List (String × String) → String → String → List (String × String)
  | [], k, v => [(k, v)]
  | p :: rest, k, v => if p.1 = k then (k, v) :: rest else p :: hashMapInsert rest k v

/-- Lookup in the association-list model of std HashMap. -/
def hashMapLookup (q : String) : List (String × String) → Option String
  | [] => none
  | p :: rest => if p.1 = q then some p.2 else hashMapLookup q rest

/-- Struct ApiOptions of src/src/client.rs. -/
structure ApiOptions where
  endpoint : String
  key : String
deriving DecidableEq

/-- Struct Properties of src/src/client.rs. -/
structure Properties where
  distinct_id : String
  properties : List (String × String)
deriving DecidableEq

/-- Struct Event of src/src/client.rs. -/
structure Event where
  event : String
  properties : Properties
  timestamp : Option NaiveDateTime
deriving DecidableEq

/-- Struct InnerEvent of src/src/client.rs. -/
structure InnerEvent where
  api_key : String
  event : String
  properties : Properties
  timestamp : Option NaiveDateTime
deriving DecidableEq

/-- Struct Client of src/src/client.rs; the timeout is in milliseconds. -/
structure Client where
  options : ApiOptions
  timeout : Nat
deriving DecidableEq

/-- Error kinds of the credential-resolution path. MissingCredential models
the VarError returned by std env var when the variable is absent;
SecretFetchError and Utf8Error model failures of the secret-store pipeline. -/
inductive CredError where
  | MissingCredential
  | SecretFetchError
  | Utf8Error
deriving DecidableEq

/-- Result of a Rust function that can also panic: ok, a returned error,
or a panic (an assert failure unwinds instead of returning). -/
inductive Outcome (ε : Type) (α : Type) where
  | ok (a : α)
  | err (e : ε)
  | panic
deriving DecidableEq

/-- Error kinds of the capture path, following the taxonomy of the spec.
The code of Client capture only ever produces Timeout; TransportError and
EncodingError are representable so that claims about them can be stated. -/
inductive CaptureError where
  | Timeout
  | TransportError (msg : String)
  | EncodingError
deriving DecidableEq

/-- ApiOptions new of src/src/client.rs: stores endpoint and key verbatim,
with no validation. -/
def ApiOptions.new (endpoint key : String) : ApiOptions :=
  ApiOptions.mk endpoint key

/-- ApiOptions from_env of src/src/client.rs. The env argument is the value
of POSTHOG_API_KEY. An absent variable makes the question-mark operator
return the VarError; a present value goes through the assert macro, which
panics when the trimmed key is empty. -/
def ApiOptions.from_env (env : Option String) : Outcome CredError ApiOptions :=
  match env with
  | none => Outcome.err CredError.MissingCredential
  | some key =>
    if (rustTrim key).isEmpty then Outcome.panic
    else Outcome.ok (ApiOptions.new API_ENDPOINT key)

/-- ApiOptions from_google_secret_manager of src/src/client.rs. The fetched
argument is the combined result of building the manager, fetching the secret
and decoding it as UTF-8; a fetched value goes through the same assert macro
as from_env, which panics when the trimmed key is empty. -/
def ApiOptions.from_google_secret_manager (fetched : Except CredError String) :
    Outcome CredError ApiOptions :=
  match fetched with
  | Except.error e => Outcome.err e
  | Except.ok key =>
    if (rustTrim key).isEmpty then Outcome.panic
    else Outcome.ok (ApiOptions.new API_ENDPOINT key)

/-- ApiOptions auto of src/src/client.rs: try from_env, fall back to
from_google_secret_manager on a returned error, surface the second error
when both fail. A panic inside from_env unwinds through auto. -/
def ApiOptions.auto (env : Option String) (fetched : Except CredError String) :
    Outcome CredError ApiOptions :=
  match ApiOptions.from_env env with
  | Outcome.ok options => Outcome.ok options
  | Outcome.err _ => ApiOptions.from_google_secret_manager fetched
  | Outcome.panic => Outcome.panic

/-- Properties new of src/src/client.rs: given distinct_id, empty map. -/
def Properties.new (distinct_id : String) : Properties :=
  Properties.mk distinct_id []

/-- Properties insert of src/src/client.rs: HashMap insert. -/
def Properties.insert (p : Properties) (key value : String) : Properties :=
  Properties.mk p.distinct_id (hashMapInsert p.properties key value)

/-- Event new of src/src/client.rs: the given name and distinct_id, empty
properties, no timestamp; no validation of either string. -/
def Event.new (event distinct_id : String) : Event :=
  Event.mk event (Properties.new distinct_id) none

/-- Event insert_prop of src/src/client.rs. -/
def Event.insert_prop (e : Event) (key value : String) : Event :=
  Event.mk e.event (e.properties.insert key value) e.timestamp

/-- Event insert_prop_many of src/src/client.rs: insert each pair in order. -/
def Event.insert_prop_many (e : Event) (props : List (String × String)) : Event :=
  props.foldl (fun acc kv => acc.insert_prop kv.1 kv.2) e

/-- Event set_timestamp of src/src/client.rs. -/
def Event.set_timestamp (e : Event) (t : NaiveDateTime) : Event :=
  Event.mk e.event e.properties (some t)

/-- InnerEvent new of src/src/client.rs: pairs the api_key with the fields
of the event, verbatim. -/
def InnerEvent.new (e : Event) (api_key : String) : InnerEvent :=
  InnerEvent.mk api_key e.event e.properties e.timestamp

/-- Structured JSON values, the target of the wire codec. -/
inductive Json where
  | null
  | str (s : String)
  | obj (fields : List (String × Json))

/-- Serde encoding of the inner HashMap: a JSON object with one field per
binding, in the canonical order of the association-list model. -/
def hashMapToJson (m : List (String × String)) : Json :=
  Json.obj (m.map (fun p => (p.1, Json.str p.2)))

/-- Serde derive encoding of Properties: fields in declaration order. -/
def Properties.toJson (p : Properties) : Json :=
  Json.obj [("distinct_id", Json.str p.distinct_id),
    ("properties", hashMapToJson p.properties)]

/-- Serde encoding of the optional timestamp: null when absent, the chrono
rendering (abstracted to a string) when present. -/
def timestampToJson : Option NaiveDateTime → Json
  | none => Json.null
  | some t => Json.str (toString t)

/-- Serde derive encoding of InnerEvent: fields in declaration order. -/
def InnerEvent.toJson (e : InnerEvent) : Json :=
  Json.obj [("api_key", Json.str e.api_key), ("event", Json.str e.event),
    ("properties", e.properties.toJson), ("timestamp", timestampToJson e.timestamp)]

/-- Model of a hyper response; only its existence matters to the client. -/
structure HttpResponse where
  status : Nat
deriving DecidableEq

/-- Behaviour of the transport for one dispatched request: the future
completes at some instant (in milliseconds) with a result, or never. -/
structure TransportBehavior where
  completesAt : Option Nat
  result : Except String HttpResponse

/-- Model of tokio time timeout around the request future: the result when
the future completes within the bound, an elapsed error otherwise. -/
def awaitTimeout (limit : Nat) (b : TransportBehavior) :
    Except Unit (Except String HttpResponse) :=
  match b.completesAt with
  | some n => if n ≤ limit then Except.ok b.result else Except.error ()
  | none => Except.error ()

/-- An HTTP request as built inside Client capture. -/
structure HttpRequest where
  method : String
  url : String
  headers : List (String × String)
  body : Json

/-- Client new of src/src/client.rs: the given options, default timeout. -/
def Client.new (options : ApiOptions) : Client :=
  Client.mk options TIMEOUT

/-- Client new_with_timeout of src/src/client.rs. -/
def Client.new_with_timeout (options : ApiOptions) (timeout : Nat) : Client :=
  Client.mk options timeout

/-- The request built inside Client capture of src/src/client.rs: POST to
endpoint ++ APT_CAPTURE, Content-Type application/json, body the serde
encoding of InnerEvent new of the event and the held key. -/
def Client.buildRequest (c : Client) (event : Event) : HttpRequest :=
  HttpRequest.mk "POST" (c.options.endpoint ++ APT_CAPTURE)
    [("Content-Type", "application/json")]
    (InnerEvent.toJson (InnerEvent.new event c.options.key))

/-- Client capture of src/src/client.rs. The timeout match arm returns an
error; the completed arm binds the transport result into _response and never
inspects it, so a completed exchange yields ok whether the transport
returned a response or a send error. -/
def Client.capture (c : Client) (event : Event) (transport : TransportBehavior) :
    Except CaptureError Unit :=
  let _request := c.buildRequest event
  match awaitTimeout c.timeout transport with
  | Except.ok response =>
    let _response := response
    Except.ok ()
  | Except.error _ => Except.error CaptureError.Timeout

/-- Client capture_batch of src/src/client.rs: capture each event in order,
the question-mark operator returning the first capture error. -/
def Client.capture_batch (c : Client) : List (Event × TransportBehavior) →
    Except CaptureError Unit
  | [] => Except.ok ()
  | et :: rest =>
    match c.capture et.1 et.2 with
    | Except.error e => Except.error e
    | Except.ok _ => c.capture_batch rest

/-- Number of capture invocations made by the loop of capture_batch: each
iteration dispatches once, and the loop stops after an erroring capture. -/
def Client.dispatchAttempts (c : Client) : List (Event × TransportBehavior) → Nat
  | [] => 0
  | et :: rest =>
    match c.capture et.1 et.2 with
    | Except.error _ => 1
    | Except.ok _ => 1 + c.dispatchAttempts rest

/-- Modelled from the spec: set_timeout is described in section 4.4 of the
spec but absent from src/src/client.rs (the spec records a second
implementation variant of this module that is not under src). Per the spec
it rebuilds the bound timeout and leaves the credentials untouched. -/
def Client.set_timeout (c : Client) (d : Nat) : Client :=
  Client.mk c.options d

/-- Sample credentials for concrete evaluations. -/
def sampleOptions : ApiOptions :=
  ApiOptions.new API_ENDPOINT "test_api_key"

/-- Sample client with the default timeout. -/
def sampleClient : Client :=
  Client.new sampleOptions

/-- Sample event for concrete evaluations. -/
def sampleEvent : Event :=
  Event.new "test_event" "distinct_id_username_test"

/-- Transport behaviour: completes at once with a 200 response. -/
def okResponse : TransportBehavior :=
  TransportBehavior.mk (some 0) (Except.ok (HttpResponse.mk 200))

/-- Transport behaviour: completes at once with a hyper send error. -/
def failedSend : TransportBehavior :=
  TransportBehavior.mk (some 0) (Except.error "connection refused")

/-- Transport behaviour: the future never completes, so the timeout fires. -/
def neverCompletes : TransportBehavior :=
  TransportBehavior.mk none (Except.ok (HttpResponse.mk 200))

/-- First-some choice on options, used to state last-write-wins lookups. -/
def optOr (a b : Option String) : Option String :=
  match a with
  | some v => some v
  | none => b

theorem optOr_assoc (a b c : Option String) :
    optOr (optOr a b) c = optOr a (optOr b c) := by
  cases a <;> rfl

theorem hashMapLookup_insert (m : List (String × String)) (k q v : String) :
    hashMapLookup q (hashMapInsert m k v) =
      if k = q then some v else hashMapLookup q m := by
  induction m with
  | nil => simp [hashMapInsert, hashMapLookup]
  | cons p rest ih =>
    by_cases hpk : p.1 = k
    · by_cases hkq : k = q
      · simp [hashMapInsert, hashMapLookup, hpk, hkq]
      · have hpq : ¬ p.1 = q := by
          rw [hpk]
          exact hkq
        simp [hashMapInsert, hashMapLookup, hpk, hkq, hpq]
    · by_cases hpq : p.1 = q
      · have hkq : ¬ k = q := by
          intro h
          exact hpk (by rw [hpq, h])
        have hqk : ¬ q = k := fun h => hkq h.symm
        simp [hashMapInsert, hashMapLookup, hpk, hpq, hkq, hqk]
      · simp [hashMapInsert, hashMapLookup, hpk, hpq, ih]

theorem hashMapLookup_append (xs ys : List (String × String)) (q : String) :
    hashMapLookup q (xs ++ ys) = optOr (hashMapLookup q xs) (hashMapLookup q ys) := by
  induction xs with
  | nil => simp [hashMapLookup, optOr]
  | cons p rest ih =>
    by_cases hq : p.1 = q <;> simp [hashMapLookup, optOr, hq, ih]

theorem lookup_foldl_insert (ps : List (String × String))
    (m : List (String × String)) (q : String) :
    hashMapLookup q (ps.foldl (fun acc kv => hashMapInsert acc kv.1 kv.2) m) =
      optOr (hashMapLookup q ps.reverse) (hashMapLookup q m) := by
  induction ps generalizing m with
  | nil => simp [hashMapLookup, optOr]
  | cons p rest ih =>
    have hsingle : hashMapLookup q [p] = if p.1 = q then some p.2 else none := by
      by_cases hq : p.1 = q <;> simp [hashMapLookup, hq]
    calc hashMapLookup q ((p :: rest).foldl (fun acc kv => hashMapInsert acc kv.1 kv.2) m)
        = optOr (hashMapLookup q rest.reverse)
            (hashMapLookup q (hashMapInsert m p.1 p.2)) := ih (hashMapInsert m p.1 p.2)
      _ = optOr (hashMapLookup q rest.reverse)
            (optOr (hashMapLookup q [p]) (hashMapLookup q m)) := by
            rw [hashMapLookup_insert, hsingle]
            by_cases hq : p.1 = q <;> simp [optOr, hq]
      _ = optOr (hashMapLookup q (rest.reverse ++ [p])) (hashMapLookup q m) := by
            rw [hashMapLookup_append, optOr_assoc]
      _ = optOr (hashMapLookup q (p :: rest).reverse) (hashMapLookup q m) := by
            simp

theorem insert_prop_many_properties (e : Event) (ps : List (String × String)) :
    (e.insert_prop_many ps).properties.properties =
      ps.foldl (fun acc kv => hashMapInsert acc kv.1 kv.2) e.properties.properties := by
  induction ps generalizing e with
  | nil => rfl
  | cons p rest ih =>
    have h1 : e.insert_prop_many (p :: rest) =
        (e.insert_prop p.1 p.2).insert_prop_many rest := rfl
    rw [h1, ih]
    rfl

/-- Batch of three events whose second dispatch fails at the transport
level (the send errors); the first and third complete with a response. -/
def batchSendFailSecond : List (Event × TransportBehavior) :=
  [(Event.new "e1" "d", okResponse),
   (Event.new "e2" "d", failedSend),
   (Event.new "e3" "d", okResponse)]

/-- Batch of three events whose second dispatch times out. -/
def batchTimeoutSecond : List (Event × TransportBehavior) :=
  [(Event.new "e1" "d", okResponse),
   (Event.new "e2" "d", neverCompletes),
   (Event.new "e3" "d", okResponse)]

/-- C1: evaluation of Client.capture at a failing transport. The claim says
a failed HTTP send is returned as a TransportError and no failure outcome is
discarded; the code binds the transport result into an unused _response and
returns success, so a send failure is silently discarded, while an elapsed
timeout is returned as an error. -/
theorem C1_capture_discards_send_failure :
    Client.capture sampleClient sampleEvent failedSend = Except.ok () ∧
    Client.capture sampleClient sampleEvent neverCompletes =
      Except.error CaptureError.Timeout :=
  ⟨rfl, rfl⟩

/-- C2 counterexample: a key that is whitespace-only after trimming makes
from_env and from_google_secret_manager panic via the assert macro instead
of returning an InvalidCredential error. -/
theorem C2_blank_key_panics :
    ApiOptions.from_env (some "   ") = Outcome.panic ∧
    ApiOptions.from_google_secret_manager (Except.ok "   ") = Outcome.panic := by
  exact ⟨by decide, by decide⟩

/-- C2 amended: from_env returns the missing-variable error when the
environment variable is absent; a present key that is blank after trimming
makes from_env panic, and a non-blank key succeeds; likewise
from_google_secret_manager propagates fetch errors, panics on a blank
decoded secret and succeeds on a non-blank one. -/
theorem C2_amended_blank_key_behaviour :
    ApiOptions.from_env none = Outcome.err CredError.MissingCredential ∧
    (∀ k : String, (rustTrim k).isEmpty = true →
      ApiOptions.from_env (some k) = Outcome.panic) ∧
    (∀ k : String, (rustTrim k).isEmpty = false →
      ApiOptions.from_env (some k) = Outcome.ok (ApiOptions.new API_ENDPOINT k)) ∧
    (∀ e : CredError,
      ApiOptions.from_google_secret_manager (Except.error e) = Outcome.err e) ∧
    (∀ k : String, (rustTrim k).isEmpty = true →
      ApiOptions.from_google_secret_manager (Except.ok k) = Outcome.panic) ∧
    (∀ k : String, (rustTrim k).isEmpty = false →
      ApiOptions.from_google_secret_manager (Except.ok k) =
        Outcome.ok (ApiOptions.new API_ENDPOINT k)) := by
  refine ⟨rfl, ?_, ?_, fun e => rfl, ?_, ?_⟩ <;>
    intro k h <;>
    simp [ApiOptions.from_env, ApiOptions.from_google_secret_manager, h]

/-- C2 witness: the amended behaviour at concrete keys. -/
theorem C2_amended_blank_key_behaviour_witness :
    ApiOptions.from_env (some " ") = Outcome.panic ∧
    ApiOptions.from_env (some "key") = Outcome.ok (ApiOptions.new API_ENDPOINT "key") :=
  ⟨C2_amended_blank_key_behaviour.2.1 " " (by decide),
   C2_amended_blank_key_behaviour.2.2.1 "key" (by decide)⟩

/-- C3 counterexample: with the environment variable set to whitespace and a
usable secret available, auto panics inside from_env instead of falling
through to the secret store and returning its result. -/
theorem C3_whitespace_env_no_fallback :
    ApiOptions.auto (some "   ") (Except.ok "secret_key") = Outcome.panic ∧
    ApiOptions.from_google_secret_manager (Except.ok "secret_key") =
      Outcome.ok (ApiOptions.new API_ENDPOINT "secret_key") ∧
    (Outcome.panic : Outcome CredError ApiOptions) ≠
      Outcome.ok (ApiOptions.new API_ENDPOINT "secret_key") :=
  ⟨by decide, by decide, by decide⟩

/-- C3 amended: auto returns the from_env result when it succeeds; when
from_env returns an error (the variable is absent) auto returns the result
of the secret-store source, so with both failing the second error is the one
surfaced; but a whitespace-only environment value makes from_env panic and
auto propagates the panic instead of falling through. -/
theorem C3_amended_fallback_behaviour :
    (∀ fetched : Except CredError String,
      ApiOptions.auto none fetched = ApiOptions.from_google_secret_manager fetched) ∧
    (∀ (k : String) (fetched : Except CredError String), (rustTrim k).isEmpty = false →
      ApiOptions.auto (some k) fetched = Outcome.ok (ApiOptions.new API_ENDPOINT k)) ∧
    (∀ (k : String) (fetched : Except CredError String), (rustTrim k).isEmpty = true →
      ApiOptions.auto (some k) fetched = Outcome.panic) ∧
    (∀ e : CredError, ApiOptions.auto none (Except.error e) = Outcome.err e) := by
  refine ⟨fun fetched => rfl, ?_, ?_, fun e => rfl⟩ <;>
    intro k fetched h <;>
    simp [ApiOptions.auto, ApiOptions.from_env, h]

/-- C3 witness: the amended fallback behaviour at concrete inputs. -/
theorem C3_amended_fallback_behaviour_witness :
    ApiOptions.auto (some "env_key") (Except.ok "secret2") =
      Outcome.ok (ApiOptions.new API_ENDPOINT "env_key") ∧
    ApiOptions.auto (some "  ") (Except.ok "secret2") = Outcome.panic :=
  ⟨C3_amended_fallback_behaviour.2.1 "env_key" (Except.ok "secret2") (by decide),
   C3_amended_fallback_behaviour.2.2.1 "  " (Except.ok "secret2") (by decide)⟩

/-- C4: for every event and API key, the wire codec yields exactly the
envelope with fields api_key, event, properties (holding distinct_id and the
inner property map) and timestamp, and the timestamp field is JSON null
when the event has no timestamp. -/
theorem C4_wire_envelope :
    (∀ (e : Event) (api_key : String),
      InnerEvent.toJson (InnerEvent.new e api_key) =
        Json.obj [("api_key", Json.str api_key), ("event", Json.str e.event),
          ("properties", Json.obj [("distinct_id", Json.str e.properties.distinct_id),
            ("properties",
              Json.obj (e.properties.properties.map (fun p => (p.1, Json.str p.2))))]),
          ("timestamp", timestampToJson e.timestamp)]) ∧
    timestampToJson none = Json.null :=
  ⟨fun _ _ => rfl, rfl⟩

/-- C5: evaluation of capture_batch at a batch of three whose second send
fails. The claim says the failure is returned and only two dispatch attempts
occur; because capture discards a send failure, the code dispatches all
three events and returns success. A timed-out second event, by contrast,
does short-circuit: two attempts and the timeout error returned. -/
theorem C5_batch_send_failure_not_short_circuited :
    Client.capture_batch sampleClient batchSendFailSecond = Except.ok () ∧
    Client.dispatchAttempts sampleClient batchSendFailSecond = 3 ∧
    Client.capture_batch sampleClient batchTimeoutSecond =
      Except.error CaptureError.Timeout ∧
    Client.dispatchAttempts sampleClient batchTimeoutSecond = 2 :=
  ⟨rfl, rfl, rfl, rfl⟩

/-- C6: property insertion is last-write-wins. For every event, pair list
and key, looking the key up after insert_prop_many returns the value of the
last pair with that key in the list when there is one, and otherwise the
value the event already had; and the concrete example of the spec holds. -/
theorem C6_insert_prop_many_last_write_wins :
    (∀ (e : Event) (ps : List (String × String)) (q : String),
      hashMapLookup q (e.insert_prop_many ps).properties.properties =
        optOr (hashMapLookup q ps.reverse)
          (hashMapLookup q e.properties.properties)) ∧
    (((Event.new "n" "d").insert_prop "key1" "value1").insert_prop_many
        [("key1", "value1b"), ("key2", "value2")] =
      Event.mk "n" (Properties.mk "d" [("key1", "value1b"), ("key2", "value2")]) none) := by
  constructor
  · intro e ps q
    rw [insert_prop_many_properties, lookup_foldl_insert]
  · rfl

/-- C7: set_timeout rebuilds the bound timeout, leaves the resolved
credentials unchanged, and all subsequent capture calls behave as those of a
client constructed with the same options and the new timeout. In the
embedding every other client operation is a pure function that returns no
modified client, matching immutability after construction. -/
theorem C7_set_timeout_frame :
    ∀ (c : Client) (d : Nat),
      (c.set_timeout d).timeout = d ∧
      (c.set_timeout d).options = c.options ∧
      (c.set_timeout d).options.endpoint = c.options.endpoint ∧
      (c.set_timeout d).options.key = c.options.key ∧
      (∀ (e : Event) (t : TransportBehavior),
        (c.set_timeout d).capture e t = (Client.new_with_timeout c.options d).capture e t) :=
  fun _ _ => ⟨rfl, rfl, rfl, rfl, fun _ _ => rfl⟩

/-- C8 counterexample: the public constructor ApiOptions.new performs no
validation, so an ApiOptions value with a key that is empty after trimming
is constructible, refuting the claimed all-constructors invariant. -/
theorem C8_new_accepts_blank_key :
    (rustTrim (ApiOptions.new API_ENDPOINT "").key).isEmpty = true := by
  decide

/-- C8 amended: the resolving constructors from_env and
from_google_secret_manager only ever return an ApiOptions whose key is
non-empty after trimming, but ApiOptions.new stores endpoint and key
verbatim with no validation. -/
theorem C8_amended_resolver_key_invariant :
    (∀ (env : Option String) (o : ApiOptions),
      ApiOptions.from_env env = Outcome.ok o → (rustTrim o.key).isEmpty = false) ∧
    (∀ (fetched : Except CredError String) (o : ApiOptions),
      ApiOptions.from_google_secret_manager fetched = Outcome.ok o →
        (rustTrim o.key).isEmpty = false) ∧
    (∀ endpoint key : String,
      (ApiOptions.new endpoint key).key = key ∧
      (ApiOptions.new endpoint key).endpoint = endpoint) := by
  refine ⟨?_, ?_, fun _ _ => ⟨rfl, rfl⟩⟩
  · intro env o h
    cases env with
    | none => simp [ApiOptions.from_env] at h
    | some k =>
      by_cases hk : (rustTrim k).isEmpty <;>
        simp [ApiOptions.from_env, hk] at h
      rw [← h]
      simpa [ApiOptions.new] using hk
  · intro fetched o h
    cases fetched with
    | error e => simp [ApiOptions.from_google_secret_manager] at h
    | ok k =>
      by_cases hk : (rustTrim k).isEmpty <;>
        simp [ApiOptions.from_google_secret_manager, hk] at h
      rw [← h]
      simpa [ApiOptions.new] using hk

/-- C8 witness: the resolver invariant at a concrete successful resolution. -/
theorem C8_amended_resolver_key_invariant_witness :
    (rustTrim (ApiOptions.new API_ENDPOINT "abc").key).isEmpty = false :=
  C8_amended_resolver_key_invariant.1 (some "abc")
    (ApiOptions.new API_ENDPOINT "abc") (by decide)

/-- C9: the request built by capture is a POST to the concatenation of the
client endpoint with capture/, carries the Content-Type application/json
header, and its body is the wire encoding of the event with the held key;
the default endpoint paired with env- or secret-resolved keys is the
well-known ingestion base URL. -/
theorem C9_post_request_shape :
    (∀ (c : Client) (e : Event),
      (c.buildRequest e).method = "POST" ∧
      (c.buildRequest e).url = c.options.endpoint ++ APT_CAPTURE ∧
      (c.buildRequest e).headers = [("Content-Type", "application/json")] ∧
      (c.buildRequest e).body = InnerEvent.toJson (InnerEvent.new e c.options.key)) ∧
    APT_CAPTURE = "capture/" ∧
    API_ENDPOINT = "https://app.posthog.com/" ∧
    (∀ (env : Option String) (o : ApiOptions),
      ApiOptions.from_env env = Outcome.ok o → o.endpoint = API_ENDPOINT) ∧
    (∀ (fetched : Except CredError String) (o : ApiOptions),
      ApiOptions.from_google_secret_manager fetched = Outcome.ok o →
        o.endpoint = API_ENDPOINT) := by
  refine ⟨fun c e => ⟨rfl, rfl, rfl, rfl⟩, rfl, rfl, ?_, ?_⟩
  · intro env o h
    cases env with
    | none => simp [ApiOptions.from_env] at h
    | some k =>
      by_cases hk : (rustTrim k).isEmpty <;>
        simp [ApiOptions.from_env, hk] at h
      rw [← h]
      rfl
  · intro fetched o h
    cases fetched with
    | error e => simp [ApiOptions.from_google_secret_manager] at h
    | ok k =>
      by_cases hk : (rustTrim k).isEmpty <;>
        simp [ApiOptions.from_google_secret_manager, hk] at h
      rw [← h]
      rfl

/-- C9 witness: an env-resolved ApiOptions carries the default endpoint. -/
theorem C9_post_request_shape_witness :
    (ApiOptions.new API_ENDPOINT "wkey").endpoint = API_ENDPOINT :=
  C9_post_request_shape.2.2.2.1 (some "wkey") (ApiOptions.new API_ENDPOINT "wkey")
    (by decide)

/-- C10: Event.new validates nothing: for every pair of strings, including
empty ones, it yields an event with that name and distinct_id, empty
properties and no timestamp, and those exact strings appear unchanged in
the encoded wire envelope. -/
theorem C10_event_new_no_validation :
    ∀ name distinct_id api_key : String,
      (Event.new name distinct_id).event = name ∧
      (Event.new name distinct_id).properties.distinct_id = distinct_id ∧
      (Event.new name distinct_id).properties.properties = [] ∧
      (Event.new name distinct_id).timestamp = none ∧
      InnerEvent.toJson (InnerEvent.new (Event.new name distinct_id) api_key) =
        Json.obj [("api_key", Json.str api_key), ("event", Json.str name),
          ("properties", Json.obj [("distinct_id", Json.str distinct_id),
            ("properties", Json.obj [])]),
          ("timestamp", Json.null)] :=
  fun _ _ _ => ⟨rfl, rfl, rfl, rfl, rfl⟩
